import Mathlib

/-!
Shallow embedding of the synchronization core of the relaynet private gateway:
the parcel collection WebSocket server (handshake, delivery stream, ACK
processor, collection tracker), the courier sync subprocess (exit codes, CCA
generation, cargo message stream), the UI courier-sync status stream, and the
gateway registrar.

JavaScript string-keyed objects are embedded as association lists with unique
keys; JavaScript truthiness of `string | undefined` is made explicit.
-/

/-- WebSocket close codes used by the server (values per RFC 6455, cited in the
spec's external-interface section; the `WebSocketCode` enum itself lives in
`websocket.ts`, outside the provided sources). -/
def WebSocketCode.NORMAL : Nat := 1000

/-- Close code 1008, used for malformed/unauthorized/unknown-ID conditions. -/
def WebSocketCode.CANNOT_ACCEPT : Nat := 1008

/-- Lookup in a string-keyed association list, embedding a JS object read
`obj[key]` (returns the value or undefined). -/
def assocGet : List (String × String) → String → Option String
  | [], _ => none
  | (d, k) :: rest, key => if d = key then some k else assocGet rest key

/-- Write `obj[key] = value` on a JS object: replace the existing entry for the
key, or append a fresh one. -/
def assocSet : List (String × String) → String → String → List (String × String)
  | [], key, value => [(key, value)]
  | (d, k) :: rest, key, value =>
      if d = key then (key, value) :: rest else (d, k) :: assocSet rest key value

/-- Embed `delete obj[key]` on a JS object. On lists whose keys are unique
(which JS objects guarantee structurally) this removes exactly the entry for
the key. -/
def assocRemove (l : List (String × String)) (key : String) : List (String × String) :=
  l.filter fun p => p.1 ≠ key

/-- Truthiness of a JS `string | undefined` value: defined and non-empty. -/
def isTruthy : Option String → Bool
  | none => false
  | some s => s ≠ ""

/-- The per-session `CollectionTracker` of the parcel collection server:
a boolean `wereAllParcelsDelivered` plus the `pendingParcelKeyByDeliveryId`
object mapping delivery IDs to parcel keys. -/
structure CollectionTracker where
  wereAllParcelsDelivered : Bool
  pendingParcelKeyByDeliveryId : List (String × String)
deriving Repr, DecidableEq

/-- The tracker's completion getter: all parcels delivered and the pending map
has no keys left. -/
def CollectionTracker.isCollectionComplete (t : CollectionTracker) : Bool :=
  t.wereAllParcelsDelivered && decide (t.pendingParcelKeyByDeliveryId.length = 0)

/-- Mark the delivery direction as finished. -/
def CollectionTracker.markAllParcelsDelivered (t : CollectionTracker) : CollectionTracker :=
  { t with wereAllParcelsDelivered := true }

/-- Record a freshly minted delivery ID against its parcel key. -/
def CollectionTracker.addPendingACK
    (t : CollectionTracker) (deliveryId parcelKey : String) : CollectionTracker :=
  { t with pendingParcelKeyByDeliveryId :=
      assocSet t.pendingParcelKeyByDeliveryId deliveryId parcelKey }

/-- The tracker's `popPendingParcelKey`: read the mapping for the delivery ID,
and delete it only when the value read is truthy (the source guards the
`delete` with `if (parcelKey)`). Returns the value read and the new tracker. -/
def CollectionTracker.popPendingParcelKey
    (t : CollectionTracker) (deliveryId : String) : Option String × CollectionTracker :=
  match assocGet t.pendingParcelKeyByDeliveryId deliveryId with
  | none => (none, t)
  | some parcelKey =>
      if parcelKey = "" then (some parcelKey, t)
      else (some parcelKey,
            { t with pendingParcelKeyByDeliveryId :=
                assocRemove t.pendingParcelKeyByDeliveryId deliveryId })

/-- The tracker after the pending entry for a delivery ID is deleted; this is
the tracker `popPendingParcelKey` returns for a truthy non-empty read. -/
def CollectionTracker.removePending (t : CollectionTracker) (deliveryId : String) :
    CollectionTracker :=
  { t with pendingParcelKeyByDeliveryId :=
      assocRemove t.pendingParcelKeyByDeliveryId deliveryId }

/-- Observable actions a parcel collection session performs on the socket and
the parcel store. -/
inductive SessionAction where
  | sendParcel (deliveryId parcelKey : String)
  | deleteParcel (parcelKey : String)
  | close (code : Nat) (reason : String)
deriving Repr, DecidableEq

/-- The close reason used for acknowledgements of unknown delivery IDs. -/
def unknownAckReason : String := "Unknown delivery id sent as acknowledgement"

/-- The ACK-direction processor returned by `makeACKProcessor`, run over a list
of inbound ACK messages. For each message: pop the tracker entry; a falsy
result closes the socket with CANNOT_ACCEPT and stops; otherwise the parcel is
deleted and, when the collection is complete, the socket is closed normally
and processing stops. Returns the final tracker and the trace of actions. -/
def makeACKProcessor : CollectionTracker → List String → CollectionTracker × List SessionAction
  | t, [] => (t, [])
  | t, ackMessage :: rest =>
      match t.popPendingParcelKey ackMessage with
      | (none, t') =>
          (t', [SessionAction.close WebSocketCode.CANNOT_ACCEPT unknownAckReason])
      | (some parcelKey, t') =>
          if parcelKey = "" then
            (t', [SessionAction.close WebSocketCode.CANNOT_ACCEPT unknownAckReason])
          else if t'.isCollectionComplete then
            (t', [SessionAction.deleteParcel parcelKey,
                  SessionAction.close WebSocketCode.NORMAL ""])
          else
            let r := makeACKProcessor t' rest
            (r.1, SessionAction.deleteParcel parcelKey :: r.2)

/-- Count the parcel deletions in an action trace. -/
def countDeletions (actions : List SessionAction) : Nat :=
  (actions.filter fun a =>
    match a with
    | SessionAction.deleteParcel _ => true
    | _ => false).length

/-- One parcel key yielded by the parcel store's key stream, together with the
result of retrieving its blob (`none` when deletion raced the enumeration) and
the fresh UUID `makeDeliveryStream` would mint for it if sent. -/
structure ParcelOffer where
  parcelKey : String
  parcelSerialized : Option String
  freshDeliveryId : String
deriving Repr, DecidableEq

/-- The delivery direction returned by `makeDeliveryStream`, run over the
parcel-key stream. Missing blobs are skipped without tracking; present blobs
are recorded in the tracker and sent. When the key stream ends, all parcels
are marked delivered and, if the collection is already complete, the socket is
closed normally. -/
def makeDeliveryStream : CollectionTracker → List ParcelOffer → CollectionTracker × List SessionAction
  | t, [] =>
      let t' := t.markAllParcelsDelivered
      (t', if t'.isCollectionComplete then [SessionAction.close WebSocketCode.NORMAL ""] else [])
  | t, offer :: rest =>
      match offer.parcelSerialized with
      | some _ =>
          let t' := t.addPendingACK offer.freshDeliveryId offer.parcelKey
          let r := makeDeliveryStream t' rest
          (r.1, SessionAction.sendParcel offer.freshDeliveryId offer.parcelKey :: r.2)
      | none => makeDeliveryStream t rest

/-- An event observed by a parcel collection session: the store stream yields
a parcel key, the store stream ends (delivery side drained), or an ACK frame
arrives. The two directions run as cooperative subtasks over the shared
tracker, so a session is an interleaving of these events. -/
inductive SessionEvent where
  | parcelKey (offer : ParcelOffer)
  | deliveryStreamEnd
  | ack (message : String)
deriving Repr, DecidableEq

/-- Process one session event against the shared tracker, returning the new
tracker and the actions performed at that step, exactly as the corresponding
branch of `makeDeliveryStream` / `makeACKProcessor` does. -/
def sessionStep (t : CollectionTracker) : SessionEvent → CollectionTracker × List SessionAction
  | SessionEvent.parcelKey offer =>
      match offer.parcelSerialized with
      | some _ =>
          (t.addPendingACK offer.freshDeliveryId offer.parcelKey,
           [SessionAction.sendParcel offer.freshDeliveryId offer.parcelKey])
      | none => (t, [])
  | SessionEvent.deliveryStreamEnd =>
      let t' := t.markAllParcelsDelivered
      (t', if t'.isCollectionComplete then [SessionAction.close WebSocketCode.NORMAL ""] else [])
  | SessionEvent.ack message =>
      match t.popPendingParcelKey message with
      | (none, t') =>
          (t', [SessionAction.close WebSocketCode.CANNOT_ACCEPT unknownAckReason])
      | (some parcelKey, t') =>
          if parcelKey = "" then
            (t', [SessionAction.close WebSocketCode.CANNOT_ACCEPT unknownAckReason])
          else if t'.isCollectionComplete then
            (t', [SessionAction.deleteParcel parcelKey,
                  SessionAction.close WebSocketCode.NORMAL ""])
          else
            (t', [SessionAction.deleteParcel parcelKey])

/-- Whether an action trace contains a socket close. -/
def containsClose (actions : List SessionAction) : Bool :=
  actions.any fun a =>
    match a with
    | SessionAction.close _ _ => true
    | _ => false

/-- Run a parcel collection session over an interleaving of events. A step
that closes the socket ends the session; later events are not processed. -/
def runCollectionSession : CollectionTracker → List SessionEvent → CollectionTracker × List SessionAction
  | t, [] => (t, [])
  | t, e :: rest =>
      let s := sessionStep t e
      if containsClose s.2 then s
      else
        let r := runCollectionSession s.1 rest
        (r.1, s.2 ++ r.2)

/-- The single inbound handshake frame, deserialized: a `HandshakeResponse`
carrying a list of detached nonce signatures (signatures left abstract). -/
structure HandshakeResponseMsg where
  nonceSignatures : List Nat
deriving Repr, DecidableEq

/-- Result of `doHandshake`: the socket was closed with a code and reason and
the promise resolved to null, or the handshake succeeded with the list of
endpoint private addresses. -/
inductive HandshakeResult where
  | refused (closeCode : Nat) (closeReason : String)
  | accepted (endpointAddresses : List String)
deriving Repr, DecidableEq

/-- The `verifyNonceSignatures` loop: verify each signature in order against
the gateway's own certificates, aborting on the first failure (the source
throws there). `verify` abstracts the crypto library's verification, returning
the signing endpoint certificate on success. -/
def verifyNonceSignatures (verify : Nat → Option Nat) : List Nat → Option (List Nat)
  | [] => some []
  | sig :: rest =>
      match verify sig with
      | none => none
      | some cert => (verifyNonceSignatures verify rest).map fun certs => cert :: certs

/-- The server-side handshake `doHandshake`, applied to the parse result of
the single inbound frame (`none` when deserialization threw). `verify`
abstracts signature verification and `addrOf` abstracts
`calculateSubjectPrivateAddress` on the signing certificate. -/
def doHandshake (frame : Option HandshakeResponseMsg)
    (verify : Nat → Option Nat) (addrOf : Nat → String) : HandshakeResult :=
  match frame with
  | none => HandshakeResult.refused WebSocketCode.CANNOT_ACCEPT "Malformed handshake response"
  | some response =>
      if response.nonceSignatures.length = 0 then
        HandshakeResult.refused WebSocketCode.CANNOT_ACCEPT
          "Handshake response does not include any signatures"
      else
        match verifyNonceSignatures verify response.nonceSignatures with
        | none =>
            HandshakeResult.refused WebSocketCode.CANNOT_ACCEPT
              "Handshake response includes malformed/invalid signature(s)"
        | some endpointCertificates =>
            HandshakeResult.accepted (endpointCertificates.map addrOf)

/-- A parcel collection connection end to end: the connection handler runs the
handshake first; on refusal it returns at once (the only observable action is
the close recorded by the handshake), otherwise the session proper runs over
a fresh tracker. -/
def collectionServerConnection (frame : Option HandshakeResponseMsg)
    (verify : Nat → Option Nat) (addrOf : Nat → String)
    (events : List SessionEvent) : List SessionAction :=
  match doHandshake frame verify addrOf with
  | HandshakeResult.refused code reason => [SessionAction.close code reason]
  | HandshakeResult.accepted _ =>
      (runCollectionSession (CollectionTracker.mk false []) events).2

/-- The streaming-mode request header consulted by the collection server. -/
def streamingModeHeader : String := "x-relaynet-streaming-mode"

/-- The keep-alive computation of `makeParcelCollectionServer`: the session is
keep-alive unless the streaming-mode header is exactly the literal string
"close-upon-completion" (strict inequality on the raw header value). -/
def sessionKeepAlive (requestHeaders : List (String × String)) : Bool :=
  decide (assocGet requestHeaders streamingModeHeader ≠ some "close-upon-completion")

/-- The arguments the collection server passes to the parcel store's
`streamActiveBoundForEndpoints`: the authenticated endpoint addresses and the
keep-alive flag computed from the request headers. -/
structure StoreStreamCall where
  endpointAddresses : List String
  keepAlive : Bool
deriving Repr, DecidableEq

/-- The store subscription made by `makeParcelCollectionServer` for a session
with the given authenticated addresses and request headers. -/
def collectionServerStoreCall (endpointAddresses : List String)
    (requestHeaders : List (String × String)) : StoreStreamCall :=
  { endpointAddresses := endpointAddresses
  , keepAlive := sessionKeepAlive requestHeaders }

/-- Exit codes of the courier-sync subprocess (`CourierSyncExitCode`; the enum
is declared in the package index, outside the provided sources — values are
the ones in the spec's exit-code table). -/
def CourierSyncExitCode.OK : Nat := 0

/-- Exit code for a private gateway with no persisted public gateway. -/
def CourierSyncExitCode.UNREGISTERED_GATEWAY : Nat := 1

/-- Exit code for any failure during the sync. -/
def CourierSyncExitCode.FAILED_SYNC : Nat := 2

/-- Stages notified to the parent process during a courier sync. -/
inductive CourierSyncStage where
  | COLLECTION
  | WAIT
  | DELIVERY
deriving Repr, DecidableEq

/-- The environment a run of `runCourierSync` interacts with: the result of
fetching the persisted public gateway (its public address, `none` when
unregistered), of the default-gateway discovery, of `CogRPCClient.init`, and
of the collect and deliver phases (each `Except.error` when the corresponding
awaited step throws). -/
structure CourierSyncEnv where
  publicGateway : Option String
  defaultGateway : Except Unit String
  clientInit : Except Unit Unit
  collectResult : Except Unit Unit
  deliverResult : Except Unit Unit
deriving Repr

/-- Observable outcome of a run of `runCourierSync`: the exit code, whether a
CogRPC client was opened, whether it was closed (the `finally` block runs
`client?.close()`), and the stage notifications written to the parent. -/
structure CourierSyncOutcome where
  exitCode : Nat
  clientOpened : Bool
  clientClosed : Bool
  stages : List CourierSyncStage
deriving Repr, DecidableEq

/-- The courier-sync subprocess entry point `runCourierSync`. Unregistered →
exit 1. Default-gateway discovery failure → exit 2. Then, inside a
try/catch/finally that closes the client it opened: open the CogRPC client,
collect (which first notifies COLLECTION), notify WAIT and sleep, deliver
(which first notifies DELIVERY); any throw → exit 2; otherwise exit 0. -/
def runCourierSync (env : CourierSyncEnv) : CourierSyncOutcome :=
  match env.publicGateway with
  | none =>
      { exitCode := CourierSyncExitCode.UNREGISTERED_GATEWAY
      , clientOpened := false, clientClosed := false, stages := [] }
  | some _ =>
      match env.defaultGateway with
      | Except.error _ =>
          { exitCode := CourierSyncExitCode.FAILED_SYNC
          , clientOpened := false, clientClosed := false, stages := [] }
      | Except.ok _ =>
          match env.clientInit with
          | Except.error _ =>
              { exitCode := CourierSyncExitCode.FAILED_SYNC
              , clientOpened := false, clientClosed := false, stages := [] }
          | Except.ok _ =>
              match env.collectResult with
              | Except.error _ =>
                  { exitCode := CourierSyncExitCode.FAILED_SYNC
                  , clientOpened := true, clientClosed := true
                  , stages := [CourierSyncStage.COLLECTION] }
              | Except.ok _ =>
                  match env.deliverResult with
                  | Except.error _ =>
                      { exitCode := CourierSyncExitCode.FAILED_SYNC
                      , clientOpened := true, clientClosed := true
                      , stages := [CourierSyncStage.COLLECTION, CourierSyncStage.WAIT,
                                   CourierSyncStage.DELIVERY] }
                  | Except.ok _ =>
                      { exitCode := CourierSyncExitCode.OK
                      , clientOpened := true, clientClosed := true
                      , stages := [CourierSyncStage.COLLECTION, CourierSyncStage.WAIT,
                                   CourierSyncStage.DELIVERY] }

/-- Clock-drift tolerance applied to CCA creation dates, in minutes. -/
def CLOCK_DRIFT_TOLERANCE_MINUTES : Int := 90

/-- TTL of outbound cargo (and of the CCA itself), in days. -/
def OUTBOUND_CARGO_TTL_DAYS : Int := 14

/-- The time-relevant fields of the CCA built by `generateCCA`: its recipient
address, creation date, TTL in seconds, and the validity end date of the
embedded cargo delivery authorization certificate. Dates are in seconds. -/
structure CCAFields where
  recipientAddress : String
  creationDate : Int
  ttl : Int
  cdaValidityEndDate : Int
deriving Repr, DecidableEq

/-- The `generateCCA` computation of the courier-sync subprocess, sampling
`now` (in seconds) once: creation date is `now` minus the clock-drift
tolerance, the cargo-delivery-authorization certificate expires 14 days after
`now`, and the CCA's TTL spans from the creation date to that end date. -/
def generateCCA (publicGatewayAddress : String) (now : Int) : CCAFields :=
  let startDate := now - CLOCK_DRIFT_TOLERANCE_MINUTES * 60
  let endDate := now + OUTBOUND_CARGO_TTL_DAYS * 24 * 60 * 60
  { recipientAddress := "https://" ++ publicGatewayAddress
  , creationDate := startDate
  , ttl := endDate - startDate
  , cdaValidityEndDate := endDate }

/-- Expiry date of a CCA: its creation date plus its TTL. -/
def CCAFields.expiryDate (cca : CCAFields) : Int :=
  cca.creationDate + cca.ttl

/-- A row of the `ParcelCollection` table: a pending parcel collection ACK
awaiting shipment, with the original parcel's expiry date (in seconds). -/
structure ParcelCollectionRow where
  senderEndpointPrivateAddress : String
  recipientEndpointAddress : String
  parcelId : String
  parcelExpiryDate : Int
deriving Repr, DecidableEq

/-- An inner message of the deliver-phase cargo stream: a serialized parcel
collection ACK or a serialized Internet-bound parcel blob. -/
inductive CargoInnerMessage where
  | pca (senderEndpointPrivateAddress recipientEndpointAddress parcelId : String)
  | parcelBlob (blob : String)
deriving Repr, DecidableEq

/-- One item yielded by the cargo message stream: a message tagged with an
expiry date. -/
structure CargoStreamItem where
  message : CargoInnerMessage
  expiryDate : Int
deriving Repr, DecidableEq

/-- An entry of `parcelStore.listInternetBound()`: a parcel key and the
parcel's expiry date. -/
structure ParcelWithExpiryDate where
  parcelKey : String
  expiryDate : Int
deriving Repr, DecidableEq

/-- The first loop of `makeCargoMessageStream`: yield one PCA per row of the
collections table, tagged with the original parcel's expiry date. -/
def emitPendingACKs : List ParcelCollectionRow → List CargoStreamItem
  | [] => []
  | row :: rest =>
      { message := CargoInnerMessage.pca row.senderEndpointPrivateAddress
          row.recipientEndpointAddress row.parcelId
      , expiryDate := row.parcelExpiryDate } :: emitPendingACKs rest

/-- The second loop of `makeCargoMessageStream`: for each Internet-bound
parcel listed by the store, retrieve its blob and yield it tagged with its
expiry date, silently skipping parcels whose retrieval returns null. -/
def emitInternetBoundParcels (retrieve : String → Option String) :
    List ParcelWithExpiryDate → List CargoStreamItem
  | [] => []
  | parcel :: rest =>
      match retrieve parcel.parcelKey with
      | some blob =>
          { message := CargoInnerMessage.parcelBlob blob
          , expiryDate := parcel.expiryDate } :: emitInternetBoundParcels retrieve rest
      | none => emitInternetBoundParcels retrieve rest

/-- The deliver-phase `makeCargoMessageStream`, applied to the collections
table rows found at stream start, the store's Internet-bound listing, and the
blob retrieval function. -/
def makeCargoMessageStream (pendingACKs : List ParcelCollectionRow)
    (internetBoundParcels : List ParcelWithExpiryDate)
    (retrieve : String → Option String) : List CargoStreamItem :=
  emitPendingACKs pendingACKs ++ emitInternetBoundParcels retrieve internetBoundParcels

/-- Statuses of the UI courier synchronization stream. -/
inductive CourierSyncStatus where
  | COLLECTING_CARGO
  | WAITING
  | DELIVERING_CARGO
  | COMPLETE
deriving Repr, DecidableEq

/-- What a consumer of the UI status iterable observes: the statuses yielded,
and whether iteration ended with a CourierSyncError. -/
structure CourierSyncObservation where
  statuses : List CourierSyncStatus
  errored : Bool
deriving Repr, DecidableEq

/-- The UI generator `_synchronizeWithCourier`. An empty token rejects with a
CourierSyncError before any status. Otherwise the four statuses are yielded
unconditionally, with sleeps in between; the generator never opens or reads
any stage source, so the `stageSource` argument (what an underlying source
would yield) is ignored. -/
def synchronizeWithCourierRun (token : String) (stageSource : List String) :
    CourierSyncObservation :=
  if token = "" then { statuses := [], errored := true }
  else
    { statuses := [CourierSyncStatus.COLLECTING_CARGO, CourierSyncStatus.WAITING,
                   CourierSyncStatus.DELIVERING_CARGO, CourierSyncStatus.COMPLETE]
    , errored := false }

/-- Network-visible calls the gateway registrar can make. -/
inductive RegistrarCall where
  | makeGSCClient (address : String)
  | preRegisterNode
  | registerNode
deriving Repr, DecidableEq

/-- Persistent state the registrar reads and writes: the config entry
`public_gateway_address` and the stored identity certificate (abstract). -/
structure RegistrarState where
  publicGatewayAddress : Option String
  savedNodeCertificate : Option String
deriving Repr, DecidableEq

/-- Modelled from the spec: `GatewayRegistrar.register` (the class's own
module is not among the provided sources; only its unit tests and callers
are). Step 1: if the stored `public_gateway_address` already equals the
requested address, return at once — no PoWeb client, no network I/O, no
persistence. Otherwise resolve a PoWeb client, pre-register, register, and
persist the received certificate and the address. `issuedCertificate`
abstracts the certificate returned by the registration round-trip. -/
def GatewayRegistrar.register (st : RegistrarState) (publicAddress : String)
    (issuedCertificate : String) : RegistrarState × List RegistrarCall :=
  if st.publicGatewayAddress = some publicAddress then (st, [])
  else
    ({ publicGatewayAddress := some publicAddress
     , savedNodeCertificate := some issuedCertificate },
     [RegistrarCall.makeGSCClient publicAddress, RegistrarCall.preRegisterNode,
      RegistrarCall.registerNode])

/-- Close code recorded by a refused handshake, `none` on success. -/
def HandshakeResult.closeCode : HandshakeResult → Option Nat
  | HandshakeResult.refused code _ => some code
  | HandshakeResult.accepted _ => none

/-- Close reason recorded by a refused handshake, `none` on success. -/
def HandshakeResult.closeReason : HandshakeResult → Option String
  | HandshakeResult.refused _ reason => some reason
  | HandshakeResult.accepted _ => none

/-- The endpoint addresses the handshake promise resolves to: `none` embeds
the null of a refused handshake. -/
def HandshakeResult.resolvedAddresses : HandshakeResult → Option (List String)
  | HandshakeResult.refused _ _ => none
  | HandshakeResult.accepted addresses => some addresses

/-- Whether a cargo stream inner message is a parcel collection ACK. -/
def CargoInnerMessage.isPCA : CargoInnerMessage → Bool
  | CargoInnerMessage.pca _ _ _ => true
  | CargoInnerMessage.parcelBlob _ => false

/-- The parcel keys currently tracked by the pending map (its values). -/
def CollectionTracker.pendingParcelKeys (t : CollectionTracker) : List String :=
  t.pendingParcelKeyByDeliveryId.map Prod.snd

/-- C4: every CCA produced by the courier sync driver has creationDate =
now − 90 minutes and expiry = now + 14 days (with now sampled once), so
creationDate ≤ now ≤ expiry and expiry − creationDate = 14 days + 90 minutes;
the embedded cargo delivery authorization also expires at now + 14 days. -/
theorem generateCCA_validity_window (publicGatewayAddress : String) (now : Int) :
    (generateCCA publicGatewayAddress now).creationDate = now - 90 * 60 ∧
    (generateCCA publicGatewayAddress now).expiryDate = now + 14 * 24 * 60 * 60 ∧
    (generateCCA publicGatewayAddress now).creationDate ≤ now ∧
    now ≤ (generateCCA publicGatewayAddress now).expiryDate ∧
    (generateCCA publicGatewayAddress now).expiryDate -
        (generateCCA publicGatewayAddress now).creationDate =
      14 * 24 * 60 * 60 + 90 * 60 ∧
    (generateCCA publicGatewayAddress now).cdaValidityEndDate =
      (generateCCA publicGatewayAddress now).expiryDate := by
  simp [generateCCA, CCAFields.expiryDate, CLOCK_DRIFT_TOLERANCE_MINUTES,
    OUTBOUND_CARGO_TTL_DAYS]
  omega

/-- C6: the session's keepAlive flag is false iff the streaming-mode header is
exactly the literal "close-upon-completion"; absence or any other value gives
keepAlive = true; and the keep-alive flag forwarded to the parcel store's key
stream is that same value. -/
theorem collectionServer_keepAlive_header (endpointAddresses : List String)
    (requestHeaders : List (String × String)) :
    (sessionKeepAlive requestHeaders = false ↔
        assocGet requestHeaders streamingModeHeader = some "close-upon-completion") ∧
    (assocGet requestHeaders streamingModeHeader ≠ some "close-upon-completion" →
        sessionKeepAlive requestHeaders = true) ∧
    (collectionServerStoreCall endpointAddresses requestHeaders).keepAlive =
      sessionKeepAlive requestHeaders := by
  refine ⟨?_, ?_, rfl⟩
  · simp [sessionKeepAlive]
  · intro h
    simp [sessionKeepAlive, h]

/-- Witness for C6: a request whose streaming-mode header holds another value
is a keep-alive session. -/
theorem collectionServer_keepAlive_header_witness :
    sessionKeepAlive [("x-relaynet-streaming-mode", "keep-alive")] = true :=
  (collectionServer_keepAlive_header []
      [("x-relaynet-streaming-mode", "keep-alive")]).2.1 (by decide)

/-- C8 evaluation: with the non-empty token "TOKEN" and an underlying source
yielding the unknown stage "UNKNOWN", the UI generator still emits all four
statuses and never errors, because it ignores any stage source. -/
theorem synchronizeWithCourier_ignores_unknown_stage :
    synchronizeWithCourierRun "TOKEN" ["UNKNOWN"] =
      { statuses := [CourierSyncStatus.COLLECTING_CARGO, CourierSyncStatus.WAITING,
                     CourierSyncStatus.DELIVERING_CARGO, CourierSyncStatus.COMPLETE]
      , errored := false } := by
  rfl

/-- C5: register(X) is idempotent: when the stored public gateway address
already equals X the call returns without any client construction, network
call or persistence, and a second register(X) right after a first performs no
network calls at all. -/
theorem register_idempotent :
    (∀ (st : RegistrarState) (publicAddress issuedCertificate : String),
        st.publicGatewayAddress = some publicAddress →
        GatewayRegistrar.register st publicAddress issuedCertificate = (st, [])) ∧
    (∀ (st : RegistrarState) (publicAddress cert1 cert2 : String),
        (GatewayRegistrar.register
            (GatewayRegistrar.register st publicAddress cert1).1
            publicAddress cert2).2 = []) := by
  constructor
  · intro st publicAddress issuedCertificate h
    simp [GatewayRegistrar.register, h]
  · intro st publicAddress cert1 cert2
    by_cases h : st.publicGatewayAddress = some publicAddress
    · simp [GatewayRegistrar.register, h]
    · simp [GatewayRegistrar.register, h]

/-- Witness for C5: a registrar already configured with the requested address
returns unchanged with no calls. -/
theorem register_idempotent_witness :
    GatewayRegistrar.register
        (RegistrarState.mk (some "braavos.relaycorp.cloud") none)
        "braavos.relaycorp.cloud" "cert" =
      (RegistrarState.mk (some "braavos.relaycorp.cloud") none, []) :=
  register_idempotent.1 (RegistrarState.mk (some "braavos.relaycorp.cloud") none)
    "braavos.relaycorp.cloud" "cert" rfl

/-- C2: an ACK whose delivery ID is not currently mapped in the tracker makes
the session's next (and last) observable action a close with code 1008 and the
"Unknown delivery id" reason, with zero deletions from that ACK onward. -/
theorem ackProcessor_unknown_ack (t : CollectionTracker) (ackMessage : String)
    (rest : List String)
    (h : isTruthy (assocGet t.pendingParcelKeyByDeliveryId ackMessage) = false) :
    (makeACKProcessor t (ackMessage :: rest)).2 =
      [SessionAction.close WebSocketCode.CANNOT_ACCEPT unknownAckReason] ∧
    countDeletions (makeACKProcessor t (ackMessage :: rest)).2 = 0 := by
  cases hg : assocGet t.pendingParcelKeyByDeliveryId ackMessage with
  | none =>
      simp [makeACKProcessor, CollectionTracker.popPendingParcelKey, hg, countDeletions]
  | some parcelKey =>
      have hk : parcelKey = "" := by
        rw [hg] at h
        simpa [isTruthy] using h
      subst hk
      simp [makeACKProcessor, CollectionTracker.popPendingParcelKey, hg, countDeletions]

/-- Witness for C2: a session with an empty tracker that receives one unknown
ACK closes with 1008 and deletes nothing. -/
theorem ackProcessor_unknown_ack_witness :
    (makeACKProcessor (CollectionTracker.mk false []) ["deadbeef", "other"]).2 =
      [SessionAction.close WebSocketCode.CANNOT_ACCEPT unknownAckReason] ∧
    countDeletions (makeACKProcessor (CollectionTracker.mk false [])
      ["deadbeef", "other"]).2 = 0 :=
  ackProcessor_unknown_ack (CollectionTracker.mk false []) "deadbeef" ["other"] (by decide)

/-- Counterexample to C1 as stated: a run with a registered gateway, a
successful default-gateway discovery and no collect/deliver error, but a
failing CogRPC client initialization, exits with code 2 rather than the
claimed code 0. -/
theorem runCourierSync_client_init_counterexample :
    (runCourierSync
        { publicGateway := some "braavos.relaycorp.cloud"
        , defaultGateway := Except.ok "192.168.0.1"
        , clientInit := Except.error ()
        , collectResult := Except.ok ()
        , deliverResult := Except.ok () }).exitCode = CourierSyncExitCode.FAILED_SYNC ∧
    (runCourierSync
        { publicGateway := some "braavos.relaycorp.cloud"
        , defaultGateway := Except.ok "192.168.0.1"
        , clientInit := Except.error ()
        , collectResult := Except.ok ()
        , deliverResult := Except.ok () }).exitCode ≠ CourierSyncExitCode.OK := by
  exact ⟨rfl, by decide⟩

/-- C1 (amended): runCourierSync exits 1 iff no public gateway is persisted;
exits 2 iff it is registered and default-gateway discovery, CogRPC client
initialization, the collect phase or the deliver phase fails; exits 0 exactly
when all of those succeed; and the CogRPC client is closed iff one was
opened. -/
theorem runCourierSync_exit_codes (env : CourierSyncEnv) :
    ((runCourierSync env).exitCode = CourierSyncExitCode.UNREGISTERED_GATEWAY ↔
        env.publicGateway = none) ∧
    ((runCourierSync env).exitCode = CourierSyncExitCode.FAILED_SYNC ↔
        env.publicGateway ≠ none ∧
          (env.defaultGateway = Except.error () ∨ env.clientInit = Except.error () ∨
            env.collectResult = Except.error () ∨ env.deliverResult = Except.error ())) ∧
    ((runCourierSync env).exitCode = CourierSyncExitCode.OK ↔
        env.publicGateway ≠ none ∧ (∃ ip, env.defaultGateway = Except.ok ip) ∧
          env.clientInit = Except.ok () ∧ env.collectResult = Except.ok () ∧
          env.deliverResult = Except.ok ()) ∧
    (runCourierSync env).clientClosed = (runCourierSync env).clientOpened := by
  obtain ⟨pg, gw, ci, cr, dr⟩ := env
  cases pg <;> cases gw <;> cases ci <;> cases cr <;> cases dr <;>
    simp [runCourierSync, CourierSyncExitCode.OK, CourierSyncExitCode.UNREGISTERED_GATEWAY,
      CourierSyncExitCode.FAILED_SYNC]

/-- Witness for C1: a fully successful environment exits with code 0. -/
theorem runCourierSync_exit_codes_witness :
    (runCourierSync
        { publicGateway := some "braavos.relaycorp.cloud"
        , defaultGateway := Except.ok "192.168.0.1"
        , clientInit := Except.ok ()
        , collectResult := Except.ok ()
        , deliverResult := Except.ok () }).exitCode = CourierSyncExitCode.OK :=
  (runCourierSync_exit_codes
      { publicGateway := some "braavos.relaycorp.cloud"
      , defaultGateway := Except.ok "192.168.0.1"
      , clientInit := Except.ok ()
      , collectResult := Except.ok ()
      , deliverResult := Except.ok () }).2.2.1.mpr
    ⟨by simp, ⟨"192.168.0.1", rfl⟩, rfl, rfl, rfl⟩

/-- Helper: a close action in a trace makes `containsClose` true. -/
theorem containsClose_of_mem {actions : List SessionAction} {code : Nat} {reason : String}
    (h : SessionAction.close code reason ∈ actions) : containsClose actions = true := by
  simp only [containsClose, List.any_eq_true]
  exact ⟨SessionAction.close code reason, h, rfl⟩

/-- Helper: `assocSet` never returns the empty object. -/
theorem assocSet_ne_nil (l : List (String × String)) (key value : String) :
    assocSet l key value ≠ [] := by
  cases l with
  | nil => simp [assocSet]
  | cons p rest =>
      obtain ⟨d, k⟩ := p
      by_cases h : d = key <;> simp [assocSet, h]

/-- Helper: a session step that emits a NORMAL close leaves the tracker
complete. -/
theorem sessionStep_close_normal {t : CollectionTracker} {e : SessionEvent}
    (h : SessionAction.close WebSocketCode.NORMAL "" ∈ (sessionStep t e).2) :
    (sessionStep t e).1.isCollectionComplete = true := by
  cases e with
  | parcelKey offer =>
      cases ho : offer.parcelSerialized with
      | some blob => simp [sessionStep, ho] at h
      | none => simp [sessionStep, ho] at h
  | deliveryStreamEnd =>
      simp [sessionStep] at h
      simpa [sessionStep] using h
  | ack message =>
      cases hp : t.popPendingParcelKey message with
      | mk pk t' =>
          cases pk with
          | none =>
              simp [sessionStep, hp, WebSocketCode.NORMAL, WebSocketCode.CANNOT_ACCEPT] at h
          | some parcelKey =>
              by_cases hk : parcelKey = ""
              · subst hk
                simp [sessionStep, hp, WebSocketCode.NORMAL, WebSocketCode.CANNOT_ACCEPT] at h
              · by_cases hc : t'.isCollectionComplete = true
                · simpa [sessionStep, hp, hk, hc] using hc
                · simp [sessionStep, hp, hk, hc] at h

/-- Helper: if a session run ever closes with code NORMAL, the tracker at the
end of the run is complete. -/
theorem runCollectionSession_close_complete (t : CollectionTracker)
    (events : List SessionEvent)
    (h : SessionAction.close WebSocketCode.NORMAL "" ∈ (runCollectionSession t events).2) :
    (runCollectionSession t events).1.isCollectionComplete = true := by
  induction events generalizing t with
  | nil => simp [runCollectionSession] at h
  | cons e rest ih =>
      by_cases hcl : containsClose (sessionStep t e).2 = true
      · rw [runCollectionSession] at h ⊢
        simp only [hcl, if_true] at h ⊢
        exact sessionStep_close_normal h
      · rw [runCollectionSession] at h ⊢
        simp only [hcl, if_false, Bool.false_eq_true] at h ⊢
        rcases List.mem_append.mp h with h1 | h2
        · exact absurd (containsClose_of_mem h1) hcl
        · exact ih _ h2

/-- Helper: a step on an incomplete tracker that makes the tracker complete
closes the socket with code NORMAL at that step. -/
theorem sessionStep_completion_closes {t : CollectionTracker} {e : SessionEvent}
    (hnot : t.isCollectionComplete = false)
    (hcomp : (sessionStep t e).1.isCollectionComplete = true) :
    SessionAction.close WebSocketCode.NORMAL "" ∈ (sessionStep t e).2 := by
  cases e with
  | parcelKey offer =>
      exfalso
      cases ho : offer.parcelSerialized with
      | some blob =>
          simp only [sessionStep, ho] at hcomp
          have hne := assocSet_ne_nil t.pendingParcelKeyByDeliveryId
            offer.freshDeliveryId offer.parcelKey
          simp [CollectionTracker.isCollectionComplete, CollectionTracker.addPendingACK,
            List.length_eq_zero] at hcomp
          exact hne hcomp.2
      | none =>
          simp only [sessionStep, ho] at hcomp
          simp [hnot] at hcomp
  | deliveryStreamEnd =>
      have hstate : (sessionStep t SessionEvent.deliveryStreamEnd).1 =
          t.markAllParcelsDelivered := by
        simp [sessionStep]
      rw [hstate] at hcomp
      simp [sessionStep, hcomp]
  | ack message =>
      simp only [sessionStep, CollectionTracker.popPendingParcelKey] at hcomp ⊢
      cases hg : assocGet t.pendingParcelKeyByDeliveryId message with
      | none =>
          exfalso
          simp only [hg] at hcomp
          simp [hnot] at hcomp
      | some parcelKey =>
          simp only [hg] at hcomp ⊢
          by_cases hk : parcelKey = ""
          · exfalso
            subst hk
            simp only [if_pos rfl] at hcomp
            simp [hnot] at hcomp
          · simp only [if_neg hk] at hcomp ⊢
            set t2 : CollectionTracker :=
              { t with pendingParcelKeyByDeliveryId :=
                  assocRemove t.pendingParcelKeyByDeliveryId message } with ht2
            by_cases hc : t2.isCollectionComplete = true
            · simp [hc]
            · exfalso
              simp [hc] at hcomp

/-- C3: a parcel collection session that closes with WebSocket code 1000 has,
at that moment, allSent = true and an empty pending delivery-ID map; and
conversely, any step (delivery side or ACK side) at which that conjunction
becomes true emits the NORMAL (1000) close. -/
theorem collectionSession_normal_close_iff_complete :
    (∀ (t : CollectionTracker) (events : List SessionEvent),
        SessionAction.close WebSocketCode.NORMAL "" ∈ (runCollectionSession t events).2 →
        (runCollectionSession t events).1.wereAllParcelsDelivered = true ∧
        (runCollectionSession t events).1.pendingParcelKeyByDeliveryId = []) ∧
    (∀ (t : CollectionTracker) (e : SessionEvent),
        t.isCollectionComplete = false →
        (sessionStep t e).1.isCollectionComplete = true →
        SessionAction.close WebSocketCode.NORMAL "" ∈ (sessionStep t e).2) := by
  constructor
  · intro t events h
    have hc := runCollectionSession_close_complete t events h
    simpa [CollectionTracker.isCollectionComplete, List.length_eq_zero] using hc
  · intro t e hnot hcomp
    exact sessionStep_completion_closes hnot hcomp

/-- Witness for C3: an empty-queue session whose delivery stream ends at once
closes normally with allSent true and an empty tracker. -/
theorem collectionSession_normal_close_iff_complete_witness :
    (runCollectionSession (CollectionTracker.mk false [])
        [SessionEvent.deliveryStreamEnd]).1.wereAllParcelsDelivered = true ∧
    (runCollectionSession (CollectionTracker.mk false [])
        [SessionEvent.deliveryStreamEnd]).1.pendingParcelKeyByDeliveryId = [] :=
  collectionSession_normal_close_iff_complete.1 (CollectionTracker.mk false [])
    [SessionEvent.deliveryStreamEnd] (by decide)

/-- Helper: the signature verification loop fails exactly when some signature
in the response fails verification. -/
theorem verifyNonceSignatures_eq_none_iff (verify : Nat → Option Nat) (sigs : List Nat) :
    verifyNonceSignatures verify sigs = none ↔ ∃ s ∈ sigs, verify s = none := by
  induction sigs with
  | nil => simp [verifyNonceSignatures]
  | cons sig rest ih =>
      cases hv : verify sig with
      | none => simp [verifyNonceSignatures, hv]
      | some cert => simp [verifyNonceSignatures, hv, Option.map_eq_none', ih]

/-- Helper: a connection whose handshake was refused performs no parcel
sends. -/
theorem collectionServerConnection_refused {frame : Option HandshakeResponseMsg}
    {verify : Nat → Option Nat} {addrOf : Nat → String} {code : Nat} {reason : String}
    (h : doHandshake frame verify addrOf = HandshakeResult.refused code reason)
    (events : List SessionEvent) (deliveryId parcelKey : String) :
    SessionAction.sendParcel deliveryId parcelKey ∉
      collectionServerConnection frame verify addrOf events := by
  simp [collectionServerConnection, h]

/-- C7: a malformed handshake frame, a frame with zero nonce signatures, or
any signature failing verification makes the server close the socket with
code 1008 and a non-empty reason, resolve the handshake to null, and deliver
no parcels; otherwise the handshake returns the private addresses derived
from each verified endpoint certificate. -/
theorem doHandshake_refusal_and_success :
    (∀ (frame : Option HandshakeResponseMsg) (verify : Nat → Option Nat)
        (addrOf : Nat → String),
        (frame = none ∨ frame = some (HandshakeResponseMsg.mk []) ∨
          (∃ response, frame = some response ∧
            ∃ s ∈ response.nonceSignatures, verify s = none)) →
        (doHandshake frame verify addrOf).closeCode = some WebSocketCode.CANNOT_ACCEPT ∧
        ((doHandshake frame verify addrOf).closeReason.getD "").length ≠ 0 ∧
        (doHandshake frame verify addrOf).resolvedAddresses = none ∧
        (∀ (events : List SessionEvent) (deliveryId parcelKey : String),
            SessionAction.sendParcel deliveryId parcelKey ∉
              collectionServerConnection frame verify addrOf events)) ∧
    (∀ (sigs certs : List Nat) (verify : Nat → Option Nat) (addrOf : Nat → String),
        sigs ≠ [] → verifyNonceSignatures verify sigs = some certs →
        doHandshake (some (HandshakeResponseMsg.mk sigs)) verify addrOf =
          HandshakeResult.accepted (certs.map addrOf)) := by
  constructor
  · intro frame verify addrOf hfail
    have hdh : ∃ reason, doHandshake frame verify addrOf =
        HandshakeResult.refused WebSocketCode.CANNOT_ACCEPT reason ∧ reason.length ≠ 0 := by
      rcases hfail with rfl | rfl | ⟨response, rfl, s, hs, hv⟩
      · exact ⟨"Malformed handshake response", rfl, by decide⟩
      · exact ⟨"Handshake response does not include any signatures", rfl, by decide⟩
      · have hne : response.nonceSignatures ≠ [] := by
          intro h0
          rw [h0] at hs
          exact absurd hs (List.not_mem_nil s)
        have hvn : verifyNonceSignatures verify response.nonceSignatures = none :=
          (verifyNonceSignatures_eq_none_iff verify response.nonceSignatures).mpr ⟨s, hs, hv⟩
        refine ⟨"Handshake response includes malformed/invalid signature(s)", ?_, by decide⟩
        simp [doHandshake, hvn, List.length_eq_zero, hne]
    obtain ⟨reason, hr, hlen⟩ := hdh
    refine ⟨?_, ?_, ?_, ?_⟩
    · rw [hr]; rfl
    · rw [hr]; simpa [HandshakeResult.closeReason] using hlen
    · rw [hr]; rfl
    · intro events deliveryId parcelKey
      exact collectionServerConnection_refused hr events deliveryId parcelKey
  · intro sigs certs verify addrOf hne hcerts
    simp [doHandshake, List.length_eq_zero, hne, hcerts]

/-- Witness for C7: a malformed frame from a peer is refused with 1008, the
handshake resolves to null and the connection sends no parcel. -/
theorem doHandshake_refusal_witness :
    (doHandshake none (fun _ => none) (fun _ => "addr")).closeCode =
        some WebSocketCode.CANNOT_ACCEPT ∧
    (doHandshake none (fun _ => none) (fun _ => "addr")).resolvedAddresses = none ∧
    SessionAction.sendParcel "id" "key" ∉
      collectionServerConnection none (fun _ => none) (fun _ => "addr")
        [SessionEvent.deliveryStreamEnd] := by
  have h := doHandshake_refusal_and_success.1 none (fun _ => none) (fun _ => "addr")
    (Or.inl rfl)
  exact ⟨h.1, h.2.2.1, h.2.2.2 [SessionEvent.deliveryStreamEnd] "id" "key"⟩

/-- Helper: the PCA loop yields exactly one item per collections-table row, in
table order, tagged with the row's parcel expiry date. -/
theorem emitPendingACKs_eq_map (rows : List ParcelCollectionRow) :
    emitPendingACKs rows = rows.map fun row =>
      { message := CargoInnerMessage.pca row.senderEndpointPrivateAddress
          row.recipientEndpointAddress row.parcelId
      , expiryDate := row.parcelExpiryDate } := by
  induction rows with
  | nil => rfl
  | cons row rest ih => simp [emitPendingACKs, ih]

/-- Helper: the parcel loop yields exactly the parcels whose blobs are still
retrievable, in listing order, tagged with their expiry dates. -/
theorem emitInternetBoundParcels_eq_filterMap (retrieve : String → Option String)
    (parcels : List ParcelWithExpiryDate) :
    emitInternetBoundParcels retrieve parcels = parcels.filterMap fun parcel =>
      (retrieve parcel.parcelKey).map fun blob =>
        { message := CargoInnerMessage.parcelBlob blob
        , expiryDate := parcel.expiryDate } := by
  induction parcels with
  | nil => rfl
  | cons parcel rest ih =>
      cases hr : retrieve parcel.parcelKey with
      | none => simp [emitInternetBoundParcels, hr, ih]
      | some blob => simp [emitInternetBoundParcels, hr, ih]

/-- C9: the deliver-phase cargo stream yields first one PCA per row of the
collections table at stream start (tagged with the original parcel's expiry
date), and only afterwards the Internet-bound parcels the store enumerates
(tagged with their expiry dates), skipping parcels whose blob retrieval
returns null; moreover every PCA it emits comes from the PCA section and has
a corresponding row in the table. -/
theorem makeCargoMessageStream_pcas_first (pendingACKs : List ParcelCollectionRow)
    (internetBoundParcels : List ParcelWithExpiryDate)
    (retrieve : String → Option String) :
    (makeCargoMessageStream pendingACKs internetBoundParcels retrieve =
      (pendingACKs.map fun row =>
        { message := CargoInnerMessage.pca row.senderEndpointPrivateAddress
            row.recipientEndpointAddress row.parcelId
        , expiryDate := row.parcelExpiryDate }) ++
      (internetBoundParcels.filterMap fun parcel =>
        (retrieve parcel.parcelKey).map fun blob =>
          { message := CargoInnerMessage.parcelBlob blob
          , expiryDate := parcel.expiryDate })) ∧
    (∀ item ∈ makeCargoMessageStream pendingACKs internetBoundParcels retrieve,
        item.message.isPCA = true →
        item ∈ emitPendingACKs pendingACKs ∧
        ∃ row ∈ pendingACKs,
          item = CargoStreamItem.mk
            (CargoInnerMessage.pca row.senderEndpointPrivateAddress
              row.recipientEndpointAddress row.parcelId)
            row.parcelExpiryDate) := by
  constructor
  · rw [makeCargoMessageStream, emitPendingACKs_eq_map, emitInternetBoundParcels_eq_filterMap]
  · intro item hmem hpca
    rw [makeCargoMessageStream] at hmem
    rcases List.mem_append.mp hmem with h1 | h2
    · refine ⟨h1, ?_⟩
      rw [emitPendingACKs_eq_map] at h1
      obtain ⟨row, hrow, hitem⟩ := List.mem_map.mp h1
      exact ⟨row, hrow, hitem.symm⟩
    · exfalso
      rw [emitInternetBoundParcels_eq_filterMap] at h2
      obtain ⟨parcel, hparcel, hmap⟩ := List.mem_filterMap.mp h2
      cases hb : retrieve parcel.parcelKey with
      | none => rw [hb] at hmap; simp at hmap
      | some blob =>
          rw [hb] at hmap
          simp only [Option.map_some', Option.some.injEq] at hmap
          rw [← hmap] at hpca
          simp [CargoInnerMessage.isPCA] at hpca

/-- Witness for C9: one pending ACK row and an empty parcel listing produce a
stream holding exactly that PCA, and that PCA belongs to the PCA section. -/
theorem makeCargoMessageStream_pcas_first_witness :
    makeCargoMessageStream [ParcelCollectionRow.mk "sender" "recipient" "p1" 100]
        [] (fun _ => none) =
      [CargoStreamItem.mk (CargoInnerMessage.pca "sender" "recipient" "p1") 100] ∧
    CargoStreamItem.mk (CargoInnerMessage.pca "sender" "recipient" "p1") 100 ∈
      emitPendingACKs [ParcelCollectionRow.mk "sender" "recipient" "p1" 100] := by
  constructor
  · have h := (makeCargoMessageStream_pcas_first
      [ParcelCollectionRow.mk "sender" "recipient" "p1" 100] [] (fun _ => none)).1
    simpa using h
  · exact ((makeCargoMessageStream_pcas_first
      [ParcelCollectionRow.mk "sender" "recipient" "p1" 100] [] (fun _ => none)).2
      (CargoStreamItem.mk (CargoInnerMessage.pca "sender" "recipient" "p1") 100)
      (by decide) (by decide)).1

/-- Helper: a successful object read means the entry is in the object. -/
theorem assocGet_mem {l : List (String × String)} {key value : String}
    (h : assocGet l key = some value) : (key, value) ∈ l := by
  induction l with
  | nil => simp [assocGet] at h
  | cons p rest ih =>
      obtain ⟨d, k⟩ := p
      by_cases hd : d = key
      · subst hd
        simp [assocGet] at h
        subst h
        exact List.mem_cons_self _ _
      · simp only [assocGet, if_neg hd] at h
        exact List.mem_cons_of_mem _ (ih h)

/-- Helper: after deleting a key from an object, reading that key gives
undefined. -/
theorem assocGet_assocRemove (l : List (String × String)) (key : String) :
    assocGet (assocRemove l key) key = none := by
  induction l with
  | nil => rfl
  | cons p rest ih =>
      obtain ⟨d, k⟩ := p
      by_cases hd : d = key
      · simpa [assocRemove, List.filter_cons, hd] using ih
      · simpa [assocRemove, List.filter_cons, assocGet, hd] using ih

/-- Helper: in an object whose values are pairwise distinct, a value
determines its key. -/
theorem values_nodup_key_unique {l : List (String × String)} {d d' k : String}
    (hnodup : (l.map Prod.snd).Nodup) (h1 : (d, k) ∈ l) (h2 : (d', k) ∈ l) : d = d' := by
  induction l with
  | nil => cases h1
  | cons p rest ih =>
      obtain ⟨a, b⟩ := p
      simp only [List.map_cons, List.nodup_cons] at hnodup
      rcases List.mem_cons.mp h1 with e1 | m1
      · rcases List.mem_cons.mp h2 with e2 | m2
        · cases e1; cases e2; rfl
        · exfalso
          cases e1
          exact hnodup.1 (List.mem_map.mpr ⟨(d', k), m2, rfl⟩)
      · rcases List.mem_cons.mp h2 with e2 | m2
        · exfalso
          cases e2
          exact hnodup.1 (List.mem_map.mpr ⟨(d, k), m1, rfl⟩)
        · exact ih hnodup.2 m1 m2

/-- Helper: deleting a delivery ID from an object with pairwise distinct
values removes its parcel key from the values. -/
theorem not_mem_values_assocRemove {l : List (String × String)} {d k : String}
    (hnodup : (l.map Prod.snd).Nodup) (hmem : (d, k) ∈ l) :
    k ∉ (assocRemove l d).map Prod.snd := by
  intro hk
  obtain ⟨p, hmem'', hv⟩ := List.mem_map.mp hk
  obtain ⟨d'', v⟩ := p
  simp only at hv
  have hpred := List.of_mem_filter hmem''
  simp only [decide_eq_true_eq] at hpred
  have hmem2 : (d'', k) ∈ l := by
    have hin := List.mem_of_mem_filter hmem''
    rwa [hv] at hin
  have heq : d = d'' := values_nodup_key_unique hnodup hmem hmem2
  exact hpred heq.symm

/-- Helper: object deletion only removes values. -/
theorem values_assocRemove_sublist (l : List (String × String)) (d : String) :
    List.Sublist ((assocRemove l d).map Prod.snd) (l.map Prod.snd) :=
  (List.filter_sublist l).map Prod.snd


/-- Helper: an ACK whose tracker read is falsy (undefined or empty string)
closes the session at once, leaving the tracker untouched. -/
theorem makeACKProcessor_cons_falsy (t : CollectionTracker) (a : String)
    (rest : List String)
    (h : isTruthy (assocGet t.pendingParcelKeyByDeliveryId a) = false) :
    makeACKProcessor t (a :: rest) =
      (t, [SessionAction.close WebSocketCode.CANNOT_ACCEPT unknownAckReason]) := by
  cases hg : assocGet t.pendingParcelKeyByDeliveryId a with
  | none => simp [makeACKProcessor, CollectionTracker.popPendingParcelKey, hg]
  | some k =>
      have hk : k = "" := by
        rw [hg] at h
        simpa [isTruthy] using h
      subst hk
      simp [makeACKProcessor, CollectionTracker.popPendingParcelKey, hg]

/-- Helper: an ACK with a truthy tracker read that completes the collection
deletes the parcel and closes normally. -/
theorem makeACKProcessor_cons_complete (t : CollectionTracker) (a k : String)
    (rest : List String)
    (hg : assocGet t.pendingParcelKeyByDeliveryId a = some k) (hk : k ≠ "")
    (hc : (t.removePending a).isCollectionComplete = true) :
    makeACKProcessor t (a :: rest) =
      (t.removePending a,
       [SessionAction.deleteParcel k, SessionAction.close WebSocketCode.NORMAL ""]) := by
  simp [makeACKProcessor, CollectionTracker.popPendingParcelKey,
    CollectionTracker.removePending] at hc ⊢
  simp [hg, hk, hc]

/-- Helper: an ACK with a truthy tracker read that leaves the collection
incomplete deletes the parcel and keeps processing. -/
theorem makeACKProcessor_cons_incomplete (t : CollectionTracker) (a k : String)
    (rest : List String)
    (hg : assocGet t.pendingParcelKeyByDeliveryId a = some k) (hk : k ≠ "")
    (hc : (t.removePending a).isCollectionComplete = false) :
    makeACKProcessor t (a :: rest) =
      ((makeACKProcessor (t.removePending a) rest).1,
       SessionAction.deleteParcel k ::
         (makeACKProcessor (t.removePending a) rest).2) := by
  simp [CollectionTracker.removePending] at hc ⊢
  simp [makeACKProcessor, CollectionTracker.popPendingParcelKey, hg, hk, hc]

/-- Helper: the ACK processor never deletes a parcel key that is not among
the tracker's pending values. -/
theorem makeACKProcessor_count_zero (ackMessages : List String) :
    ∀ (t : CollectionTracker) (parcelKey : String),
      parcelKey ∉ t.pendingParcelKeyByDeliveryId.map Prod.snd →
      (makeACKProcessor t ackMessages).2.count
        (SessionAction.deleteParcel parcelKey) = 0 := by
  induction ackMessages with
  | nil =>
      intro t parcelKey _
      simp [makeACKProcessor]
  | cons a rest ih =>
      intro t parcelKey h
      cases hg : assocGet t.pendingParcelKeyByDeliveryId a with
      | none =>
          rw [makeACKProcessor_cons_falsy t a rest (by simp [isTruthy, hg])]
          simp [List.count_cons, List.count_nil]
      | some k =>
          by_cases hk : k = ""
          · subst hk
            rw [makeACKProcessor_cons_falsy t a rest (by simp [isTruthy, hg])]
            simp [List.count_cons, List.count_nil]
          · have hkmem : (a, k) ∈ t.pendingParcelKeyByDeliveryId := assocGet_mem hg
            have hkv : k ∈ t.pendingParcelKeyByDeliveryId.map Prod.snd :=
              List.mem_map.mpr ⟨(a, k), hkmem, rfl⟩
            have hpkk : parcelKey ≠ k := fun he => h (he ▸ hkv)
            have h2 : parcelKey ∉
                (t.removePending a).pendingParcelKeyByDeliveryId.map Prod.snd := by
              intro hm
              refine h ?_
              have hsub := values_assocRemove_sublist t.pendingParcelKeyByDeliveryId a
              exact hsub.subset (by simpa [CollectionTracker.removePending] using hm)
            by_cases hc : (t.removePending a).isCollectionComplete = true
            · rw [makeACKProcessor_cons_complete t a k rest hg hk hc]
              simp [List.count_cons, List.count_nil, hpkk]
            · rw [makeACKProcessor_cons_incomplete t a k rest hg hk
                (by simpa using hc)]
              rw [List.count_cons_of_ne (by simp [hpkk])]
              exact ih _ parcelKey h2

/-- Helper: with pairwise distinct pending parcel keys, the ACK processor
deletes any given parcel key at most once. -/
theorem makeACKProcessor_count_le_one (ackMessages : List String) :
    ∀ (t : CollectionTracker) (parcelKey : String),
      (t.pendingParcelKeyByDeliveryId.map Prod.snd).Nodup →
      (makeACKProcessor t ackMessages).2.count
        (SessionAction.deleteParcel parcelKey) ≤ 1 := by
  induction ackMessages with
  | nil =>
      intro t parcelKey _
      simp [makeACKProcessor]
  | cons a rest ih =>
      intro t parcelKey hnodup
      cases hg : assocGet t.pendingParcelKeyByDeliveryId a with
      | none =>
          rw [makeACKProcessor_cons_falsy t a rest (by simp [isTruthy, hg])]
          simp [List.count_cons, List.count_nil]
      | some k =>
          by_cases hk : k = ""
          · subst hk
            rw [makeACKProcessor_cons_falsy t a rest (by simp [isTruthy, hg])]
            simp [List.count_cons, List.count_nil]
          · have hkmem : (a, k) ∈ t.pendingParcelKeyByDeliveryId := assocGet_mem hg
            have hnodup2 : ((t.removePending a).pendingParcelKeyByDeliveryId.map
                Prod.snd).Nodup := by
              have hsub := values_assocRemove_sublist t.pendingParcelKeyByDeliveryId a
              simpa [CollectionTracker.removePending] using hnodup.sublist hsub
            by_cases hc : (t.removePending a).isCollectionComplete = true
            · rw [makeACKProcessor_cons_complete t a k rest hg hk hc]
              by_cases hpk : parcelKey = k
              · subst hpk
                simp [List.count_cons, List.count_nil]
              · simp [List.count_cons, List.count_nil, hpk]
            · rw [makeACKProcessor_cons_incomplete t a k rest hg hk
                (by simpa using hc)]
              by_cases hpk : parcelKey = k
              · subst hpk
                rw [List.count_cons_self]
                have hnot : parcelKey ∉
                    (t.removePending a).pendingParcelKeyByDeliveryId.map Prod.snd := by
                  have := not_mem_values_assocRemove hnodup hkmem
                  simpa [CollectionTracker.removePending] using this
                have h0 := makeACKProcessor_count_zero rest _ parcelKey hnot
                omega
              · rw [List.count_cons_of_ne (by simp [hpk])]
                exact ih _ parcelKey hnodup2

/-- Counterexample to C10 as stated: when the first ACK of a duplicated
delivery ID completes the collection, the session closes with code 1000 right
after the first ACK and never processes the second, so no 1008 close is
issued for the duplicate. -/
theorem popPendingParcelKey_double_ack_counterexample :
    (makeACKProcessor (CollectionTracker.mk true [("d1", "k1")]) ["d1", "d1"]).2 =
      [SessionAction.deleteParcel "k1",
       SessionAction.close WebSocketCode.NORMAL ""] ∧
    ((makeACKProcessor (CollectionTracker.mk true [("d1", "k1")]) ["d1", "d1"]).2.any
      fun action =>
        match action with
        | SessionAction.close code _ => code == WebSocketCode.CANNOT_ACCEPT
        | _ => false) = false := by
  constructor <;> decide

/-- C10 (amended): a truthy popPendingParcelKey removes the mapping, so an
immediately repeated pop returns undefined; with pairwise distinct tracked
parcel keys each parcel is deleted at most once per session; and a client
that ACKs the same delivery ID twice gets 1008 on the second ACK when the
first did not complete the collection, and a 1000 close right after the first
ACK (the second going unprocessed) when it did. -/
theorem popPendingParcelKey_semantics :
    (∀ (t : CollectionTracker) (deliveryId : String),
        isTruthy (t.popPendingParcelKey deliveryId).1 = true →
        ((t.popPendingParcelKey deliveryId).2.popPendingParcelKey deliveryId).1 = none) ∧
    (∀ (t : CollectionTracker) (ackMessages : List String) (parcelKey : String),
        (t.pendingParcelKeyByDeliveryId.map Prod.snd).Nodup →
        (makeACKProcessor t ackMessages).2.count
          (SessionAction.deleteParcel parcelKey) ≤ 1) ∧
    (∀ (t : CollectionTracker) (deliveryId k : String) (rest : List String),
        assocGet t.pendingParcelKeyByDeliveryId deliveryId = some k → k ≠ "" →
        (t.removePending deliveryId).isCollectionComplete = false →
        (makeACKProcessor t (deliveryId :: deliveryId :: rest)).2 =
          [SessionAction.deleteParcel k,
           SessionAction.close WebSocketCode.CANNOT_ACCEPT unknownAckReason]) ∧
    (∀ (t : CollectionTracker) (deliveryId k : String) (rest : List String),
        assocGet t.pendingParcelKeyByDeliveryId deliveryId = some k → k ≠ "" →
        (t.removePending deliveryId).isCollectionComplete = true →
        (makeACKProcessor t (deliveryId :: deliveryId :: rest)).2 =
          [SessionAction.deleteParcel k,
           SessionAction.close WebSocketCode.NORMAL ""]) := by
  refine ⟨?_, ?_, ?_, ?_⟩
  · intro t deliveryId htruthy
    cases hg : assocGet t.pendingParcelKeyByDeliveryId deliveryId with
    | none => simp [CollectionTracker.popPendingParcelKey, hg, isTruthy] at htruthy
    | some k =>
        by_cases hk : k = ""
        · subst hk
          simp [CollectionTracker.popPendingParcelKey, hg, isTruthy] at htruthy
        · simp [CollectionTracker.popPendingParcelKey, hg, hk, assocGet_assocRemove]
  · intro t ackMessages parcelKey hnodup
    exact makeACKProcessor_count_le_one ackMessages t parcelKey hnodup
  · intro t deliveryId k rest hg hk hc
    rw [makeACKProcessor_cons_incomplete t deliveryId k (deliveryId :: rest) hg hk hc]
    have hg2 : assocGet (t.removePending deliveryId).pendingParcelKeyByDeliveryId
        deliveryId = none := by
      simp [CollectionTracker.removePending, assocGet_assocRemove]
    rw [makeACKProcessor_cons_falsy (t.removePending deliveryId) deliveryId rest
      (by simp [isTruthy, hg2])]
  · intro t deliveryId k rest hg hk hc
    rw [makeACKProcessor_cons_complete t deliveryId k (deliveryId :: rest) hg hk hc]

/-- Witness for C10: a duplicated ACK in a session that stays incomplete
after the first deletion yields one deletion then a 1008 close. -/
theorem popPendingParcelKey_semantics_witness :
    (makeACKProcessor (CollectionTracker.mk false [("d1", "k1")]) ["d1", "d1"]).2 =
      [SessionAction.deleteParcel "k1",
       SessionAction.close WebSocketCode.CANNOT_ACCEPT unknownAckReason] :=
  popPendingParcelKey_semantics.2.2.1 (CollectionTracker.mk false [("d1", "k1")])
    "d1" "k1" [] (by decide) (by decide) (by decide)
